import Mathlib

/-!
Verification development for `src/summary-view.ts` (osak/sbisec-ui), a
userscript that locates regions of a brokerage account-summary page,
extracts pending fund orders from a second page, and injects a summary
table.  The TypeScript source is shallowly embedded below: the DOM is a
rose tree of elements, fallible operations return `Except`/`Option`,
JavaScript numbers arising in this program are `JsNum` (an integer or
NaN), and exceptions thrown by the script are `Except.error` values.
-/

namespace Sbisec

/-- A JavaScript number as it can arise in this program: `parseInt` on a
string with no leading digits yields NaN; everything else here is an
integer (the regex captures contain no sign or decimal point). -/
inductive JsNum where
| nan : JsNum
| int : Int → JsNum
deriving DecidableEq, Repr

/-- Model of `PaymentAmount` from summary-view.ts (lines 18-21). -/
structure PaymentAmount where
  moneyAmount : JsNum
  pointAmount : JsNum
deriving DecidableEq, Repr

/-- Model of `Order` from summary-view.ts (lines 12-16). -/
structure Order where
  name : String
  status : String
  amount : PaymentAmount
deriving DecidableEq, Repr

/-- A DOM element: tag name, attributes, its own direct text, and child
elements.  Text nodes are modelled by `ownText` (concatenated direct
text content); node identity is modelled by structural equality. -/
inductive Element where
| mk (tag : String) (attrs : List (String × String)) (ownText : String)
    (children : List Element)

mutual

def elementDecEq : (a b : Element) → Decidable (a = b)
| .mk t1 a1 o1 c1, .mk t2 a2 o2 c2 =>
  match decEq t1 t2 with
  | isFalse h => isFalse (fun he => by cases he; exact h rfl)
  | isTrue h1 =>
    match decEq a1 a2 with
    | isFalse h => isFalse (fun he => by cases he; exact h rfl)
    | isTrue h2 =>
      match decEq o1 o2 with
      | isFalse h => isFalse (fun he => by cases he; exact h rfl)
      | isTrue h3 =>
        match elementListDecEq c1 c2 with
        | isFalse h => isFalse (fun he => by cases he; exact h rfl)
        | isTrue h4 => isTrue (by rw [h1, h2, h3, h4])

def elementListDecEq : (a b : List Element) → Decidable (a = b)
| [], [] => isTrue rfl
| [], _ :: _ => isFalse (fun he => by cases he)
| _ :: _, [] => isFalse (fun he => by cases he)
| x :: xs, y :: ys =>
  match elementDecEq x y with
  | isFalse h => isFalse (fun he => by cases he; exact h rfl)
  | isTrue h1 =>
    match elementListDecEq xs ys with
    | isFalse h => isFalse (fun he => by cases he; exact h rfl)
    | isTrue h2 => isTrue (by rw [h1, h2])

end

instance : DecidableEq Element := elementDecEq

deriving instance DecidableEq for Except

def Element.tag : Element → String
| .mk t _ _ _ => t

def Element.attrs : Element → List (String × String)
| .mk _ a _ _ => a

def Element.ownText : Element → String
| .mk _ _ o _ => o

def Element.children : Element → List Element
| .mk _ _ _ c => c

/-- An HTML document, identified with its `body` element (none of the
elements this script queries can live outside `body`). -/
structure Document where
  body : Element
deriving DecidableEq

mutual

/-- All proper descendants of an element, in document order. -/
def descendants : Element → List Element
| .mk _ _ _ cs => descendantsList cs

def descendantsList : List Element → List Element
| [] => []
| c :: cs => c :: (descendants c ++ descendantsList cs)

end

mutual

/-- Model of `textContent`: the concatenated text of an element and its
descendants (also used to model `innerText`). -/
def textContent : Element → String
| .mk _ _ own cs => own ++ textContentList cs

def textContentList : List Element → String
| [] => ""
| c :: cs => textContent c ++ textContentList cs

end

mutual

/-- All proper descendants paired with their ancestor chain (nearest
ancestor first; the chain always reaches back to the traversal root),
in document order. -/
def withAnc (anc : List Element) : Element → List (List Element × Element)
| .mk t a o cs => withAncList ((Element.mk t a o cs) :: anc) cs

def withAncList (anc : List Element) : List Element → List (List Element × Element)
| [] => []
| c :: cs => (anc, c) :: (withAnc anc c ++ withAncList anc cs)

end

mutual

/-- The parent of `target` inside the subtree of `root` (the first element,
in a pre-order walk, that has `target` among its children). -/
def parentOf : Element → Element → Option Element
| .mk t a o cs, target =>
  if target ∈ cs then some (.mk t a o cs) else parentOfList cs target

def parentOfList : List Element → Element → Option Element
| [], _ => none
| c :: cs, t =>
  match parentOf c t with
  | some p => some p
  | none => parentOfList cs t

end

/-- Attribute lookup on the attribute list of an element. -/
def attrsGet (attrs : List (String × String)) (name : String) : Option String :=
  (attrs.find? (fun a => a.1 == name)).map (fun a => a.2)

/-- Model of `getElementsByTagName(tag)` and of `querySelectorAll(tag)`:
all descendants with the given tag, in document order. -/
def elemsByTag (root : Element) (tag : String) : List Element :=
  (descendants root).filter (fun e => e.tag == tag)

/-- Model of `querySelectorAll("table")` (used at lines 76 and 82). -/
def qsaTables (root : Element) : List Element :=
  elemsByTag root "table"

/-- Model of the map query at line 71: the first
descendant `map` element whose `name` attribute is `tab_ac`. -/
def qselMapTabAc (root : Element) : Option Element :=
  ((descendants root).filter
    (fun e => e.tag == "map" && attrsGet e.attrs "name" == some "tab_ac")).head?

/-- Whether `c` is the `k`-th element (1-based) of tag `c.tag` among
the children of `parent` — the CSS nth-of-type test. -/
def isNthOfType (parent c : Element) (k : Nat) : Bool :=
  (parent.children.filter (fun x => x.tag == c.tag)).get? (k - 1) == some c

/-- Model of the cell query at lines 74, 80 and
81: the first descendant `td`, in document order, that is the `k`-th
`td` child of a `tr` whose parent is a `tbody`. -/
def qselTbodyTrTdN (root : Element) (k : Nat) : Option Element :=
  (((withAnc [] root).filter (fun pc =>
    pc.2.tag == "td" &&
      match pc.1 with
      | tr :: tbody :: _ =>
        tr.tag == "tr" && tbody.tag == "tbody" && isNthOfType tr pc.2 k
      | _ => false)).map (fun pc => pc.2)).head?

/-- Model of the table query at lines 90-92: the first
descendant table, in document order, that is the `k`-th table child of
its parent. -/
def qselTableNthOfType (root : Element) (k : Nat) : Option Element :=
  (((withAnc [] root).filter (fun pc =>
    pc.2.tag == "table" &&
      match pc.1 with
      | p :: _ => isNthOfType p pc.2 k
      | [] => false)).map (fun pc => pc.2)).head?

/-- Model of the first-row query at line 51: the first descendant
`tr`, in document order, that is the first `tr` child of its parent. -/
def qselTrFirstOfType (root : Element) : Option Element :=
  (((withAnc [] root).filter (fun pc =>
    pc.2.tag == "tr" &&
      match pc.1 with
      | p :: _ => isNthOfType p pc.2 1
      | [] => false)).map (fun pc => pc.2)).head?

/-- Model of the row query at line 127: all descendant `tr`
elements whose parent is a `tbody`, in document order. -/
def tbodyTrs (root : Element) : List Element :=
  ((withAnc [] root).filter (fun pc =>
    pc.2.tag == "tr" &&
      match pc.1 with
      | p :: _ => p.tag == "tbody"
      | [] => false)).map (fun pc => pc.2)

/-- Model of the cell list query on a row (lines 131, 133). -/
def tdsOf (row : Element) : List Element :=
  elemsByTag row "td"

/-- The space-separated tokens of a class attribute value (`cur` holds
the reversed characters of the token being read). -/
def classTokens : List Char → List Char → List String
| [], cur => if cur = [] then [] else [String.mk cur.reverse]
| c :: cs, cur =>
  if c = ' ' then
    if cur = [] then classTokens cs [] else String.mk cur.reverse :: classTokens cs []
  else classTokens cs (c :: cur)

/-- Whether the class attribute of the element contains the given class. -/
def hasClass (e : Element) (cls : String) : Bool :=
  (classTokens ((attrsGet e.attrs "class").getD "").data []).contains cls

/-- Model of the orders-table query at line 122: the
first table of the document carrying that class. -/
def qselOrdersTable (doc : Document) : Option Element :=
  ((doc.body :: descendants doc.body).filter
    (fun e => e.tag == "table" && hasClass e "md-l-table-01")).head?

/-- The next sibling element after the first occurrence of `t`. -/
def nextSiblingIn : List Element → Element → Option Element
| [], _ => none
| c :: cs, t => if c = t then cs.head? else nextSiblingIn cs t

/-- Model of `nextElementSibling` (line 73), resolved against the
document tree: the element immediately following `target` among the
children of its parent. -/
def nextElementSibling (root target : Element) : Option Element :=
  (parentOf root target).bind (fun p => nextSiblingIn p.children target)

/-- Model of `ensure` from summary-view.ts (lines 42-47): throws `message` on a
null element. -/
def ensure (maybeElem : Option Element) (message : String) : Except String Element :=
  match maybeElem with
  | none => Except.error message
  | some e => Except.ok e

/-- The predicate of `findTitledTable` (lines 50-53): the
`textContent` of its first-of-type row query loosely equals
`title` (`undefined == title` is false for a string `title`). -/
def tableTitleIs (title : String) (table : Element) : Bool :=
  match qselTrFirstOfType table with
  | none => false
  | some tr => textContent tr == title

/-- The `tables.find(...)` search inside `findTitledTable` (line 50). -/
def findTitledTableSearch (tables : List Element) (title : String) : Option Element :=
  tables.find? (tableTitleIs title)

/-- Model of `findTitledTable` from summary-view.ts (lines 49-58). -/
def findTitledTable (tables : List Element) (title : String) : Except String Element :=
  match findTitledTableSearch tables title with
  | none => Except.error ("Table titled " ++ title ++ " not found")
  | some e => Except.ok e

/-! ## The amount parser and formatter

`parsePaymentAmount` (lines 104-112) runs the JavaScript regex
`/([0-9,]+)円(\s*\(([0-9,]+)ポイント\))?/` against the input.  The
regex engine finds the leftmost position at which the pattern matches;
at a given position the greedy character classes are deterministic
(shortening a `[0-9,]+` capture can never reveal the required literal,
because every dropped character is itself in `[0-9,]`), so matching is
modelled by taking maximal runs. -/

/-- The character class `[0-9,]`. -/
def isDigitComma (c : Char) : Bool :=
  c.isDigit || c == ','

/-- The regex class `\s` on the characters that can occur here. -/
def isJsSpace (c : Char) : Bool :=
  c == ' ' || c == '\t' || c == '\n' || c == '\r'

/-- The optional group `(\s*\(([0-9,]+)ポイント\))?`, tried directly
after `円`; returns the `([0-9,]+)` capture (group 3) when the whole
group matches. -/
def matchPointGroup (cs : List Char) : Option (List Char) :=
  match cs.dropWhile isJsSpace with
  | '(' :: rest =>
    let g3 := rest.takeWhile isDigitComma
    if g3.isEmpty then none
    else
      match rest.dropWhile isDigitComma with
      | 'ポ' :: 'イ' :: 'ン' :: 'ト' :: ')' :: _ => some g3
      | _ => none
  | _ => none

/-- Matching the pattern at the start of `cs`: group 1 and, when
present, group 3. -/
def matchAt (cs : List Char) : Option (List Char × Option (List Char)) :=
  let g1 := cs.takeWhile isDigitComma
  if g1.isEmpty then none
  else
    match cs.dropWhile isDigitComma with
    | '円' :: rest => some (g1, matchPointGroup rest)
    | _ => none

/-- The regex search: try the pattern at each position, left to
right. -/
def searchMatch : List Char → Option (List Char × Option (List Char))
| [] => none
| c :: cs =>
  match matchAt (c :: cs) with
  | some r => some r
  | none => searchMatch cs

/-- Model of the comma-stripping replace call (lines 109-110). -/
def stripCommas (cs : List Char) : List Char :=
  cs.filter (fun c => c != ',')

/-- Value of a big-endian string of decimal digit characters. -/
def digitsVal (cs : List Char) : Nat :=
  cs.foldl (fun acc c => 10 * acc + (c.toNat - 48)) 0

/-- JavaScript `parseInt` on the strings produced here (comma-stripped
`[0-9,]+` captures, hence digits only): the value of the leading digit
run, or NaN when there is none (as for the empty string). -/
def parseIntJs (cs : List Char) : JsNum :=
  let ds := cs.takeWhile Char.isDigit
  if ds.isEmpty then JsNum.nan else JsNum.int (digitsVal ds)

/-- Model of `parsePaymentAmount` (lines 104-112) on the character list.  Group
1 is always captured when the regex matches; group 3 defaults the
point amount to 0 when absent. -/
def parseChars (cs : List Char) : Option PaymentAmount :=
  match searchMatch cs with
  | none => none
  | some (g1, g3opt) =>
    let moneyAmount := parseIntJs (stripCommas g1)
    let pointAmount :=
      match g3opt with
      | some g3 => parseIntJs (stripCommas g3)
      | none => JsNum.int 0
    some { moneyAmount := moneyAmount, pointAmount := pointAmount }

/-- Model of `parsePaymentAmount` from summary-view.ts (lines 104-112). -/
def parsePaymentAmount (text : String) : Option PaymentAmount :=
  parseChars text.data

/-- The decimal digits of `n`, least significant first, with explicit
fuel (any fuel above `n` suffices). -/
def toDigitsLEAux : Nat → Nat → List Nat
| 0, _ => []
| fuel + 1, n => if n < 10 then [n] else n % 10 :: toDigitsLEAux fuel (n / 10)

/-- The decimal digits of `n`, least significant first. -/
def toDigitsLE (n : Nat) : List Nat :=
  toDigitsLEAux (n + 1) n

/-- The character of a decimal digit. -/
def digitChar : Nat → Char
| 0 => '0' | 1 => '1' | 2 => '2' | 3 => '3' | 4 => '4'
| 5 => '5' | 6 => '6' | 7 => '7' | 8 => '8' | 9 => '9'
| _ => '*'

/-- Thousands grouping on a little-endian digit-character list: a comma
after every third character when more follow (`k` counts down to the
next comma position). -/
def icAux : Nat → List Char → List Char
| _, [] => []
| 0, c :: cs => ',' :: c :: icAux 2 cs
| k + 1, c :: cs => c :: icAux k cs

/-- Model of the number formatting for a non-negative integer, in the
default locale of the target site (comma thousands separators, as in
the `ja`/`en` locales). -/
def intlGroupNat (n : Nat) : List Char :=
  (icAux 3 ((toDigitsLE n).map digitChar)).reverse

/-- Model of the number formatting on a JavaScript number as it can arise
here. -/
def intlFormat : JsNum → String
| JsNum.nan => "NaN"
| JsNum.int i =>
  if i < 0 then String.mk ('-' :: intlGroupNat i.natAbs)
  else String.mk (intlGroupNat i.toNat)

/-- Model of `formatPaymentAmount` from summary-view.ts (lines 114-117). -/
def formatPaymentAmount (paymentAmount : PaymentAmount) : String :=
  intlFormat paymentAmount.moneyAmount ++ "円 (" ++
    intlFormat paymentAmount.pointAmount ++ "ポイント)"

/-- JavaScript `+` on the numbers arising here (NaN propagates). -/
def jsAdd : JsNum → JsNum → JsNum
| JsNum.int a, JsNum.int b => JsNum.int (a + b)
| _, _ => JsNum.nan

example : parsePaymentAmount "12,345円" =
    some { moneyAmount := JsNum.int 12345, pointAmount := JsNum.int 0 } := by decide

example : parsePaymentAmount "1,000円 (50ポイント)" =
    some { moneyAmount := JsNum.int 1000, pointAmount := JsNum.int 50 } := by decide

example : parsePaymentAmount "N/A" = none := by decide

example : formatPaymentAmount { moneyAmount := JsNum.int 12345, pointAmount := JsNum.int 7 } =
    "12,345円 (7ポイント)" := by decide

/-! ## Helper lemmas about runs, digits and grouping -/

theorem takeWhile_append_stop (p : Char → Bool) (xs : List Char) (y : Char)
    (ys : List Char) (hx : ∀ x ∈ xs, p x = true) (hy : p y = false) :
    (xs ++ y :: ys).takeWhile p = xs := by
  induction xs with
  | nil => simp [List.takeWhile_cons, hy]
  | cons a as ih =>
    have ha : p a = true := hx a (by simp)
    simp only [List.cons_append, List.takeWhile_cons, ha, if_true]
    rw [ih (fun x hmem => hx x (by simp [hmem]))]

theorem dropWhile_append_stop (p : Char → Bool) (xs : List Char) (y : Char)
    (ys : List Char) (hx : ∀ x ∈ xs, p x = true) (hy : p y = false) :
    (xs ++ y :: ys).dropWhile p = y :: ys := by
  induction xs with
  | nil => simp [List.dropWhile_cons, hy]
  | cons a as ih =>
    have ha : p a = true := hx a (by simp)
    simp only [List.cons_append, List.dropWhile_cons, ha, if_true]
    exact ih (fun x hmem => hx x (by simp [hmem]))

theorem takeWhile_all (p : Char → Bool) (xs : List Char)
    (hx : ∀ x ∈ xs, p x = true) : xs.takeWhile p = xs := by
  induction xs with
  | nil => rfl
  | cons a as ih =>
    have ha : p a = true := hx a (by simp)
    simp only [List.takeWhile_cons, ha, if_true]
    rw [ih (fun x hmem => hx x (by simp [hmem]))]

/-- Value of a little-endian decimal digit list. -/
def ofDigitsLE (ds : List Nat) : Nat :=
  ds.foldr (fun d acc => d + 10 * acc) 0

theorem toDigitsLEAux_val (fuel n : Nat) (h : n < fuel) :
    ofDigitsLE (toDigitsLEAux fuel n) = n := by
  induction fuel generalizing n with
  | zero => omega
  | succ f ih =>
    by_cases h10 : n < 10
    · simp [toDigitsLEAux, h10, ofDigitsLE]
    · have hrec : n / 10 < f := by omega
      simp only [toDigitsLEAux, h10, if_false, ofDigitsLE, List.foldr_cons]
      have := ih (n / 10) hrec
      simp only [ofDigitsLE] at this
      rw [this]
      omega

theorem toDigitsLEAux_lt10 (fuel n : Nat) :
    ∀ d ∈ toDigitsLEAux fuel n, d < 10 := by
  induction fuel generalizing n with
  | zero => simp [toDigitsLEAux]
  | succ f ih =>
    by_cases h10 : n < 10
    · intro d hd
      simp [toDigitsLEAux, h10] at hd
      omega
    · simp only [toDigitsLEAux, h10, if_false, List.mem_cons]
      intro d hd
      rcases hd with h | h
      · omega
      · exact ih (n / 10) d h

theorem toDigitsLE_ne_nil (n : Nat) : toDigitsLE n ≠ [] := by
  unfold toDigitsLE toDigitsLEAux
  by_cases h10 : n < 10 <;> simp [h10]

theorem ofDigitsLE_toDigitsLE (n : Nat) : ofDigitsLE (toDigitsLE n) = n :=
  toDigitsLEAux_val (n + 1) n (by omega)

theorem digitChar_isDigit (d : Nat) (h : d < 10) :
    (digitChar d).isDigit = true := by
  interval_cases d <;> decide

theorem digitChar_val (d : Nat) (h : d < 10) :
    (digitChar d).toNat - 48 = d := by
  interval_cases d <;> decide

theorem digitChar_ne_comma (d : Nat) : digitChar d ≠ ',' := by
  unfold digitChar
  split <;> decide

theorem icAux_mem (k : Nat) (l : List Char) :
    ∀ x ∈ icAux k l, x = ',' ∨ x ∈ l := by
  induction l generalizing k with
  | nil => simp [icAux]
  | cons c cs ih =>
    match k with
    | 0 =>
      simp only [icAux, List.mem_cons]
      intro x hx
      rcases hx with h | h | h
      · exact Or.inl h
      · exact Or.inr (Or.inl h)
      · rcases ih 2 x h with h2 | h2
        · exact Or.inl h2
        · exact Or.inr (Or.inr h2)
    | k + 1 =>
      simp only [icAux, List.mem_cons]
      intro x hx
      rcases hx with h | h
      · exact Or.inr (Or.inl h)
      · rcases ih k x h with h2 | h2
        · exact Or.inl h2
        · exact Or.inr (Or.inr h2)

theorem icAux_ne_nil (k : Nat) (l : List Char) (h : l ≠ []) :
    icAux k l ≠ [] := by
  match l with
  | [] => exact absurd rfl h
  | c :: cs =>
    match k with
    | 0 => simp [icAux]
    | k + 1 => simp [icAux]

theorem icAux_filter (k : Nat) (l : List Char) (h : ∀ c ∈ l, c ≠ ',') :
    (icAux k l).filter (fun c => c != ',') = l := by
  induction l generalizing k with
  | nil => simp [icAux]
  | cons c cs ih =>
    have hc : (c != ',') = true := by
      have := h c (by simp)
      simp [this]
    match k with
    | 0 =>
      simp only [icAux, List.filter_cons]
      rw [if_neg (by decide), if_pos hc]
      rw [ih 2 (fun x hx => h x (by simp [hx]))]
    | k + 1 =>
      simp only [icAux, List.filter_cons, hc, if_true]
      rw [ih k (fun x hx => h x (by simp [hx]))]

theorem intlGroupNat_chars (n : Nat) :
    ∀ c ∈ intlGroupNat n, isDigitComma c = true := by
  intro c hc
  simp only [intlGroupNat, List.mem_reverse] at hc
  rcases icAux_mem 3 _ c hc with h | h
  · simp [isDigitComma, h]
  · simp only [List.mem_map] at h
    obtain ⟨d, hd, hdc⟩ := h
    have : d < 10 := toDigitsLEAux_lt10 (n + 1) n d hd
    simp [isDigitComma, ← hdc, digitChar_isDigit d this]

theorem intlGroupNat_ne_nil (n : Nat) : intlGroupNat n ≠ [] := by
  simp only [intlGroupNat, ne_eq, List.reverse_eq_nil_iff]
  apply icAux_ne_nil
  simp [toDigitsLE_ne_nil n]

theorem stripCommas_intlGroupNat (n : Nat) :
    stripCommas (intlGroupNat n) = ((toDigitsLE n).map digitChar).reverse := by
  simp only [stripCommas, intlGroupNat, List.filter_reverse]
  rw [icAux_filter]
  intro c hc
  simp only [List.mem_map] at hc
  obtain ⟨d, _, hdc⟩ := hc
  rw [← hdc]
  exact digitChar_ne_comma d

theorem digitsVal_reverse_map (le : List Nat) (h : ∀ d ∈ le, d < 10) :
    digitsVal ((le.map digitChar).reverse) = ofDigitsLE le := by
  simp only [digitsVal, List.foldl_reverse, List.foldr_map, ofDigitsLE]
  induction le with
  | nil => rfl
  | cons d ds ih =>
    simp only [List.foldr_cons]
    rw [ih (fun x hx => h x (by simp [hx]))]
    rw [digitChar_val d (h d (by simp))]
    omega

theorem parseIntJs_digits (le : List Nat) (hlt : ∀ d ∈ le, d < 10)
    (hne : le ≠ []) :
    parseIntJs ((le.map digitChar).reverse) = JsNum.int (ofDigitsLE le) := by
  have hall : ∀ c ∈ (le.map digitChar).reverse, c.isDigit = true := by
    intro c hc
    simp only [List.mem_reverse, List.mem_map] at hc
    obtain ⟨d, hd, hdc⟩ := hc
    rw [← hdc]
    exact digitChar_isDigit d (hlt d hd)
  have hne2 : (le.map digitChar).reverse ≠ [] := by
    simp [hne]
  simp only [parseIntJs, takeWhile_all _ _ hall]
  rw [if_neg (by simpa using hne2)]
  rw [digitsVal_reverse_map le hlt]

theorem parseIntJs_stripCommas_intlGroupNat (n : Nat) :
    parseIntJs (stripCommas (intlGroupNat n)) = JsNum.int n := by
  rw [stripCommas_intlGroupNat]
  rw [parseIntJs_digits (toDigitsLE n) (toDigitsLEAux_lt10 (n + 1) n) (toDigitsLE_ne_nil n)]
  rw [ofDigitsLE_toDigitsLE]

theorem isEmpty_false_of_ne_nil (l : List Char) (h : l ≠ []) :
    l.isEmpty = false := by
  cases l with
  | nil => exact absurd rfl h
  | cons c cs => rfl

theorem matchPointGroup_format (p : Nat) :
    matchPointGroup (' ' :: '(' :: (intlGroupNat p ++ ['ポ', 'イ', 'ン', 'ト', ')'])) =
      some (intlGroupNat p) := by
  have h1 : isJsSpace ' ' = true := by decide
  have h2 : isJsSpace '(' = false := by decide
  simp only [matchPointGroup, List.dropWhile_cons, h1, h2, Bool.false_eq_true,
    if_true, if_false]
  rw [takeWhile_append_stop isDigitComma _ 'ポ' _ (intlGroupNat_chars p) (by decide)]
  rw [dropWhile_append_stop isDigitComma _ 'ポ' _ (intlGroupNat_chars p) (by decide)]
  simp [isEmpty_false_of_ne_nil _ (intlGroupNat_ne_nil p)]

theorem matchAt_format (m p : Nat) :
    matchAt (intlGroupNat m ++
        '円' :: ' ' :: '(' :: (intlGroupNat p ++ ['ポ', 'イ', 'ン', 'ト', ')'])) =
      some (intlGroupNat m, some (intlGroupNat p)) := by
  simp only [matchAt]
  rw [takeWhile_append_stop isDigitComma _ '円' _ (intlGroupNat_chars m) (by decide)]
  rw [dropWhile_append_stop isDigitComma _ '円' _ (intlGroupNat_chars m) (by decide)]
  simp [isEmpty_false_of_ne_nil _ (intlGroupNat_ne_nil m), matchPointGroup_format p]

theorem searchMatch_format (m p : Nat) :
    searchMatch (intlGroupNat m ++
        '円' :: ' ' :: '(' :: (intlGroupNat p ++ ['ポ', 'イ', 'ン', 'ト', ')'])) =
      some (intlGroupNat m, some (intlGroupNat p)) := by
  have hm := matchAt_format m p
  obtain ⟨c, cs, hc⟩ := List.exists_cons_of_ne_nil (intlGroupNat_ne_nil m)
  rw [hc] at hm ⊢
  simp only [List.cons_append] at hm ⊢
  simp [searchMatch, hm]

theorem intlFormat_natCast (m : Nat) :
    intlFormat (JsNum.int (m : Int)) = String.mk (intlGroupNat m) := by
  have h : ¬((m : Int) < 0) := by omega
  simp [intlFormat, h]

theorem format_data (m p : Nat) :
    (formatPaymentAmount { moneyAmount := JsNum.int (m : Int)
                           pointAmount := JsNum.int (p : Int) }).data =
      intlGroupNat m ++
        '円' :: ' ' :: '(' :: (intlGroupNat p ++ ['ポ', 'イ', 'ン', 'ト', ')']) := by
  have hdata : ∀ a b : String, (a ++ b).data = a.data ++ b.data := fun a b => rfl
  simp only [formatPaymentAmount, intlFormat_natCast, hdata]
  have h1 : ("円 (" : String).data = ['円', ' ', '('] := rfl
  have h2 : ("ポイント)" : String).data = ['ポ', 'イ', 'ン', 'ト', ')'] := rfl
  simp [h1, h2]

/-- C4: for every Amount with non-negative integer fields,
`parsePaymentAmount` is a left inverse of `formatPaymentAmount`
(`parse(format(a)) == a` on the representable domain). -/
theorem parse_format_roundtrip (m p : Nat) :
    parsePaymentAmount (formatPaymentAmount
        { moneyAmount := JsNum.int (m : Int), pointAmount := JsNum.int (p : Int) }) =
      some { moneyAmount := JsNum.int (m : Int), pointAmount := JsNum.int (p : Int) } := by
  simp only [parsePaymentAmount, format_data, parseChars, searchMatch_format]
  simp [parseIntJs_stripCommas_intlGroupNat]

/-- C8: `parsePaymentAmount` strips thousands separators before integer
conversion and defaults the point units to 0 when the point group is
absent: `parse("12,345円") = {12345, 0}` and
`parse("1,000円 (50ポイント)") = {1000, 50}`. -/
theorem parse_strips_separators_defaults_points :
    parsePaymentAmount "12,345円" =
        some { moneyAmount := JsNum.int 12345, pointAmount := JsNum.int 0 } ∧
      parsePaymentAmount "1,000円 (50ポイント)" =
        some { moneyAmount := JsNum.int 1000, pointAmount := JsNum.int 50 } :=
  ⟨by decide, by decide⟩

/-- C10: the regex is searched anywhere inside the input rather than
anchored to the whole string: on an amount embedded between unrelated
characters, `parsePaymentAmount` returns the embedded amount instead of
`null`. -/
theorem parse_embedded_match :
    parsePaymentAmount "合計 1,234円 (5ポイント) です" ≠ none ∧
      parsePaymentAmount "合計 1,234円 (5ポイント) です" =
        some { moneyAmount := JsNum.int 1234, pointAmount := JsNum.int 5 } :=
  ⟨by decide, by decide⟩

/-- C9 (counterexample): the claim that `parsePaymentAmount` returns
either `null` or an amount whose fields are both non-negative integers
fails on the input `",円"`: group 1 captures `","`, the commas are
stripped, and `parseInt("")` is NaN. -/
theorem parse_nonneg_counterexample :
    parsePaymentAmount ",円" =
        some { moneyAmount := JsNum.nan, pointAmount := JsNum.int 0 } ∧
      ¬(parsePaymentAmount ",円" = none ∨
        ∃ a, parsePaymentAmount ",円" = some a ∧
          (∃ mv : Int, a.moneyAmount = JsNum.int mv) ∧
          (∃ pv : Int, a.pointAmount = JsNum.int pv)) := by
  refine ⟨by decide, ?_⟩
  intro h
  rcases h with h | ⟨a, ha, ⟨mv, hm⟩, _⟩
  · exact absurd h (by decide)
  · rw [show parsePaymentAmount ",円" =
        some { moneyAmount := JsNum.nan, pointAmount := JsNum.int 0 } from by decide] at ha
    injection ha with ha2
    rw [← ha2] at hm
    exact JsNum.noConfusion hm

/-- Each field produced by `parsePaymentAmount` is NaN or a
non-negative integer. -/
def nonNegOrNaN : JsNum → Prop
| JsNum.nan => True
| JsNum.int i => 0 ≤ i

/-- C9 (amended): for every input string, `parsePaymentAmount` returns
either `null` or an amount whose fields are each either a non-negative
integer or NaN (NaN occurring exactly when a captured digit group
consists only of commas); it never throws and never produces a
negative value. -/
theorem parse_total_nonneg_or_nan (s : String) :
    parsePaymentAmount s = none ∨
      ∃ a, parsePaymentAmount s = some a ∧
        nonNegOrNaN a.moneyAmount ∧ nonNegOrNaN a.pointAmount := by
  have hint : ∀ cs : List Char, nonNegOrNaN (parseIntJs cs) := by
    intro cs
    simp only [parseIntJs]
    split
    · trivial
    · simp only [nonNegOrNaN]
      omega
  cases h : searchMatch s.data with
  | none => exact Or.inl (by simp [parsePaymentAmount, parseChars, h])
  | some r =>
    obtain ⟨g1, g3opt⟩ := r
    cases g3opt with
    | none =>
      refine Or.inr ⟨{ moneyAmount := parseIntJs (stripCommas g1)
                       pointAmount := JsNum.int 0 }, ?_, hint _, by simp [nonNegOrNaN]⟩
      simp [parsePaymentAmount, parseChars, h]
    | some g3 =>
      refine Or.inr ⟨{ moneyAmount := parseIntJs (stripCommas g1)
                       pointAmount := parseIntJs (stripCommas g3) }, ?_, hint _, hint _⟩
      simp [parsePaymentAmount, parseChars, h]

/-! ## The order extractor (`fetchFundOrders`, lines 120-144)

The loop walks the body rows two at a time.  DOM lookups that the code
performs on a possibly-`undefined` value are modelled as
`Except.error` (the thrown `TypeError`); `rows[i+1]` past the end and
`cells[k]` past the end are the two such accesses. -/

/-- The `TypeError` thrown by a property access on `undefined`. -/
def jsUndefinedError : String := "TypeError: Cannot read properties of undefined"

/-- Model of indexed cell access: past
the end, and the subsequent property access throws. -/
def getCell (cells : List Element) (i : Nat) : Except String Element :=
  match cells.get? i with
  | none => Except.error jsUndefinedError
  | some c => Except.ok c

/-- Model of `innerText` (taken as `textContent`; the cells read here hold
plain text). -/
def innerText (e : Element) : String :=
  textContent e

/-- The `for (let i = 0; i < rows.length; i += 2)` loop body of
`fetchFundOrders` (lines 129-142), on the remaining rows.  A dangling
final header row makes `rows[i+1]` `undefined`, and
the cell query on the missing data row throws before any cell is read. -/
def extractPairs : List Element → Except String (List Order)
| [] => Except.ok []
| [_] => Except.error jsUndefinedError
| headerRow :: dataRow :: rest => do
  let headerCells := tdsOf headerRow
  let dataCells := tdsOf dataRow
  let nameCell ← getCell headerCells 2
  let statusCell ← getCell headerCells 1
  let amountCell ← getCell dataCells 2
  match parsePaymentAmount (innerText amountCell) with
  | none => extractPairs rest
  | some amount => do
    let tail ← extractPairs rest
    Except.ok ({ name := innerText nameCell
                 status := innerText statusCell
                 amount := amount } :: tail)

/-- Model of `fetchFundOrders` (lines 120-144) after the fetch: locate the
orders table by its CSS class (throwing when absent — `null ==
undefined` is true) and run the extraction loop over its
`tbody > tr` rows. -/
def ordersFromDoc (root : Document) : Except String (List Order) :=
  match qselOrdersTable root with
  | none => Except.error "Orders table not found"
  | some table => extractPairs (tbodyTrs table)

/-- Consecutive header/data row pairs (a dangling last row forms no
pair). -/
def chunk2 : List Element → List (Element × Element)
| [] => []
| [_] => []
| x :: y :: rest => (x, y) :: chunk2 rest

/-- The order a header/data row pair yields: name from header cell 2,
status from header cell 1, amount parsed from data cell 2; `none` when
the amount text is unparsable. -/
def mkOrderOpt (pair : Element × Element) : Option Order :=
  ((tdsOf pair.1).get? 2).bind (fun nameCell =>
    ((tdsOf pair.1).get? 1).bind (fun statusCell =>
      ((tdsOf pair.2).get? 2).bind (fun amountCell =>
        (parsePaymentAmount (innerText amountCell)).map (fun amount =>
          { name := innerText nameCell
            status := innerText statusCell
            amount := amount }))))

/-- The parseable pairs, in source-table row order. -/
def ordersSpec (rows : List Element) : List Order :=
  (chunk2 rows).filterMap mkOrderOpt

/-! ## The summary renderer (the IIFE then-handler, lines 150-177)

Rows are created via fixed `innerHTML` templates; each template is
embedded as the cell structure it produces (inline markup inside the
banner cell is flattened to its text). -/

/-- A `<td class="mtext">` cell. -/
def mtextTd (text : String) : Element :=
  Element.mk "td" [("class", "mtext")] text []

/-- The header row (lines 155-156). -/
def bannerRow : Element :=
  Element.mk "tr" [] ""
    [Element.mk "td" [("bgcolor", "#414982"), ("colspan", "3"), ("class", "mtext-w")]
      "| 注文中投資信託" []]

/-- One order row (lines 163-167): background alternates by row
parity; cells hold name, status, formatted amount. -/
def orderRow (i : Nat) (o : Order) : Element :=
  Element.mk "tr"
    [("style.backgroundColor", if i % 2 == 0 then "#ffffff" else "#eeeeee")] ""
    [mtextTd o.name, mtextTd o.status, mtextTd (formatPaymentAmount o.amount)]

/-- The running total accumulated by the `forEach` (lines 159-170):
pairwise `+=` starting from `{0, 0}`. -/
def totalPaymentAmount (orders : List Order) : PaymentAmount :=
  orders.foldl
    (fun acc o => { moneyAmount := jsAdd acc.moneyAmount o.amount.moneyAmount
                    pointAmount := jsAdd acc.pointAmount o.amount.pointAmount })
    { moneyAmount := JsNum.int 0, pointAmount := JsNum.int 0 }

/-- The totals row (lines 171-173) for a given total. -/
def summaryRowOf (total : PaymentAmount) : Element :=
  Element.mk "tr" [("style.backgroundColor", "#e6e5ff")] ""
    [Element.mk "td" [("class", "mtext")] "計" [], Element.mk "td" [] "" [],
      mtextTd (formatPaymentAmount total)]

/-- The constructed summary table (lines 151-174): banner row, one row
per order, totals row. -/
def buildOrderTable (orders : List Order) : Element :=
  Element.mk "table" [("style.width", "340"), ("style.marginTop", "0.5em")] ""
    (bannerRow :: (orders.enum.map (fun p => orderRow p.1 p.2) ++
      [summaryRowOf (totalPaymentAmount orders)]))

/-- Model of `appendChild`: appends `child` as the last child. -/
def appendChild (parent child : Element) : Element :=
  Element.mk parent.tag parent.attrs parent.ownText (parent.children ++ [child])

/-- Line 176: `valuationTable.parentNode!!.appendChild(orderTable)` —
a `TypeError` when the anchor has no parent, otherwise `appendChild`
on the parent. -/
def insertOrderTable (docRoot anchor orderTable : Element) : Except String Element :=
  match parentOf docRoot anchor with
  | none => Except.error "TypeError: Cannot read properties of null"
  | some parent => Except.ok (appendChild parent orderTable)

/-- The claim-side pairwise sum of the money amounts. -/
def sumMoney (orders : List Order) : JsNum :=
  orders.foldl (fun acc o => jsAdd acc o.amount.moneyAmount) (JsNum.int 0)

/-- The claim-side pairwise sum of the point amounts. -/
def sumPoints (orders : List Order) : JsNum :=
  orders.foldl (fun acc o => jsAdd acc o.amount.pointAmount) (JsNum.int 0)

/-- The claim-side total: the pairwise sum, starting from `{0, 0}`. -/
def pairwiseSum (orders : List Order) : PaymentAmount :=
  { moneyAmount := sumMoney orders, pointAmount := sumPoints orders }

theorem totalPaymentAmount_eq_pairwiseSum (orders : List Order) :
    totalPaymentAmount orders = pairwiseSum orders := by
  suffices h : ∀ (l : List Order) (a b : JsNum),
      l.foldl (fun acc o => { moneyAmount := jsAdd acc.moneyAmount o.amount.moneyAmount
                              pointAmount := jsAdd acc.pointAmount o.amount.pointAmount })
          { moneyAmount := a, pointAmount := b } =
        ({ moneyAmount := l.foldl (fun acc o => jsAdd acc o.amount.moneyAmount) a
           pointAmount := l.foldl (fun acc o => jsAdd acc o.amount.pointAmount) b } :
          PaymentAmount) by
    exact h orders (JsNum.int 0) (JsNum.int 0)
  intro l
  induction l with
  | nil => intro a b; rfl
  | cons o os ih => intro a b; simp only [List.foldl_cons]; exact ih _ _

/-- C6: the amount rendered in the totals row — the last row of the
constructed table — is the format of the pairwise sum (starting from
`{0, 0}`) of the money and point amounts of all orders, and for an
empty order list that total is `{0, 0}`. -/
theorem totals_row_is_pairwise_sum (orders : List Order) :
    (buildOrderTable orders).children.getLast? =
        some (summaryRowOf (pairwiseSum orders)) ∧
      (summaryRowOf (pairwiseSum orders)).children.get? 2 =
        some (mtextTd (formatPaymentAmount (pairwiseSum orders))) ∧
      pairwiseSum ([] : List Order) =
        { moneyAmount := JsNum.int 0, pointAmount := JsNum.int 0 } := by
  refine ⟨?_, rfl, rfl⟩
  simp only [buildOrderTable, totalPaymentAmount_eq_pairwiseSum, Element.children]
  rw [show bannerRow :: (orders.enum.map (fun p => orderRow p.1 p.2) ++
      [summaryRowOf (pairwiseSum orders)]) =
    (bannerRow :: orders.enum.map (fun p => orderRow p.1 p.2)) ++
      [summaryRowOf (pairwiseSum orders)] from rfl]
  exact List.getLast?_concat _

mutual

theorem parentOf_mem_children : ∀ (root target p : Element),
    parentOf root target = some p → target ∈ p.children
| .mk t a o cs, target, p, h => by
  rw [parentOf] at h
  by_cases hmem : target ∈ cs
  · rw [if_pos hmem] at h
    cases h
    simpa [Element.children] using hmem
  · rw [if_neg hmem] at h
    exact parentOfList_mem_children cs target p h

theorem parentOfList_mem_children : ∀ (cs : List Element) (target p : Element),
    parentOfList cs target = some p → target ∈ p.children
| [], target, p, h => by rw [parentOfList] at h; cases h
| c :: rest, target, p, h => by
  rw [parentOfList] at h
  cases hc : parentOf c target with
  | some q =>
    rw [hc] at h
    cases h
    exact parentOf_mem_children c target _ hc
  | none =>
    rw [hc] at h
    exact parentOfList_mem_children rest target p h

end

/-- The anchor element of the C1 counterexample (standing for the
valuation table). -/
def vTable : Element :=
  Element.mk "table" [] "valuation" []

/-- A sibling that follows the anchor in the counterexample parent. -/
def sibDiv : Element :=
  Element.mk "div" [] "after" []

/-- The counterexample parent: the anchor is not its last child. -/
def parentTd : Element :=
  Element.mk "td" [] "" [vTable, sibDiv]

/-- C1 (counterexample): the claim that the table ends up immediately
after the anchor fails: the anchor sits at index 0, yet the table is
appended at index 2, after the intervening sibling. -/
theorem insert_not_adjacent_counterexample :
    insertOrderTable parentTd vTable (buildOrderTable []) =
        Except.ok (appendChild parentTd (buildOrderTable [])) ∧
      (appendChild parentTd (buildOrderTable [])).children =
        [vTable, sibDiv, buildOrderTable []] ∧
      (appendChild parentTd (buildOrderTable [])).children.get? 0 = some vTable ∧
      (appendChild parentTd (buildOrderTable [])).children.get? 1 ≠
        some (buildOrderTable []) := by
  refine ⟨?_, rfl, rfl, ?_⟩
  · simp [insertOrderTable, parentOf, parentTd]
  · decide

/-- C1 (amended): for every order list and anchor, the constructed
table is appended as the last child of the parent of the anchor — a sibling
within the same parent, but immediately after the anchor only when the
anchor was the last child — and the operation fails when the anchor
has no parent. -/
theorem insert_appends_as_last_child (root anchor : Element) (orders : List Order) :
    (parentOf root anchor = none →
      insertOrderTable root anchor (buildOrderTable orders) =
        Except.error "TypeError: Cannot read properties of null") ∧
      (∀ p, parentOf root anchor = some p →
        insertOrderTable root anchor (buildOrderTable orders) =
            Except.ok (appendChild p (buildOrderTable orders)) ∧
          (appendChild p (buildOrderTable orders)).children =
            p.children ++ [buildOrderTable orders] ∧
          anchor ∈ p.children) := by
  constructor
  · intro h
    simp [insertOrderTable, h]
  · intro p hp
    refine ⟨by simp [insertOrderTable, hp], rfl, ?_⟩
    exact parentOf_mem_children root anchor p hp

/-- Witness for the amended C1 theorem at a concrete parent. -/
theorem insert_appends_as_last_child_witness :
    insertOrderTable parentTd vTable (buildOrderTable []) =
        Except.ok (appendChild parentTd (buildOrderTable [])) ∧
      (appendChild parentTd (buildOrderTable [])).children =
        parentTd.children ++ [buildOrderTable []] ∧
      vTable ∈ parentTd.children :=
  (insert_appends_as_last_child parentTd vTable []).2 parentTd (by decide)

theorem get?_some_of_lt {α : Type} (l : List α) (i : Nat) (h : i < l.length) :
    ∃ a, l.get? i = some a :=
  ⟨l.get ⟨i, h⟩, List.get?_eq_get h⟩

/-- C5: on an order table whose body rows form complete header/data
pairs with at least three cells each, the extraction loop succeeds and
returns exactly the parseable pairs, in source-table row order; a pair
whose data-row amount cell is unparsable is skipped without error. -/
theorem extract_skips_unparsable : ∀ (rows : List Element),
    rows.length % 2 = 0 → (∀ r ∈ rows, 3 ≤ (tdsOf r).length) →
    extractPairs rows = Except.ok (ordersSpec rows)
| [], _, _ => rfl
| [x], heven, _ => by simp at heven
| x :: y :: rest, heven, hcells => by
  have ih := extract_skips_unparsable rest
    (by simp only [List.length_cons] at heven; omega)
    (fun r hr => hcells r (by simp [hr]))
  obtain ⟨nameCell, hname⟩ := get?_some_of_lt (tdsOf x) 2 (by
    have := hcells x (by simp); omega)
  obtain ⟨statusCell, hstatus⟩ := get?_some_of_lt (tdsOf x) 1 (by
    have := hcells x (by simp); omega)
  obtain ⟨amountCell, hamount⟩ := get?_some_of_lt (tdsOf y) 2 (by
    have := hcells y (by simp); omega)
  simp only [extractPairs, getCell, hname, hstatus, hamount, bind, Except.bind,
    ordersSpec, chunk2, List.filterMap_cons, mkOrderOpt, Option.bind_some,
    Option.bind, Option.map]
  cases hp : parsePaymentAmount (innerText amountCell) with
  | none =>
    simp only [hp]
    rw [ih]
    rfl
  | some amount =>
    simp only [hp]
    rw [ih]
    rfl

/-- A concrete 6-row orders table: three header/data pairs, the second
pair has an unparsable amount cell. -/
def rowOf (c0 c1 c2 : String) : Element :=
  Element.mk "tr" [] "" [Element.mk "td" [] c0 [], Element.mk "td" [] c1 [],
    Element.mk "td" [] c2 []]

/-- The six rows of the C5 witness table. -/
def wRows : List Element :=
  [rowOf "・" "注文中" "ファンドA", rowOf "2024/02/19" "金額" "10,000円 (100ポイント)",
    rowOf "・" "注文中" "セクション", rowOf "" "" "―",
    rowOf "・" "注文中" "ファンドB", rowOf "2024/02/20" "金額" "2,500円"]

/-- Witness for the C5 theorem: three pairs where the second amount is
unparsable yield exactly the two parseable orders, in order. -/
theorem extract_skips_unparsable_witness :
    (wRows.length % 2 = 0 ∧ ∀ r ∈ wRows, 3 ≤ (tdsOf r).length) ∧
      extractPairs wRows = Except.ok
        [{ name := "ファンドA"
           status := "注文中"
           amount := { moneyAmount := JsNum.int 10000, pointAmount := JsNum.int 100 } },
          { name := "ファンドB"
            status := "注文中"
            amount := { moneyAmount := JsNum.int 2500, pointAmount := JsNum.int 0 } }] := by
  refine ⟨⟨by decide, by decide⟩, ?_⟩
  rw [extract_skips_unparsable wRows (by decide) (by decide)]
  decide

/-- The failing input for C2: an orders table with an odd number of
body rows (a complete, parseable first pair followed by a dangling
header row). -/
def oddRows : List Element :=
  [rowOf "・" "注文中" "ファンドA", rowOf "2024/02/19" "金額" "10,000円 (100ポイント)",
    rowOf "・" "注文中" "ファンドB"]

/-- The failing document for C2. -/
def oddOrdersDoc : Document :=
  ⟨Element.mk "body" [] ""
    [Element.mk "table" [("class", "md-l-table-01")] ""
      [Element.mk "tbody" [] "" oddRows]]⟩

/-- C2 (code evaluated at the failing input): on an orders table with
an odd number of body rows the code does not return the orders of the
complete pairs — `rows[i+1]` is `undefined` for the dangling header
row and the property access on it throws, even though the first pair
was parseable. -/
theorem extract_odd_rows_throws :
    extractPairs oddRows = Except.error jsUndefinedError ∧
      ordersFromDoc oddOrdersDoc = Except.error jsUndefinedError ∧
      extractPairs (oddRows.take 2) = Except.ok
        [{ name := "ファンドA"
           status := "注文中"
           amount := { moneyAmount := JsNum.int 10000, pointAmount := JsNum.int 100 } }] :=
  ⟨by decide, by decide, by decide⟩

/-! ## The page locator (`accountSummaryPage`, lines 69-102) -/

/-- The left-column fields of `AccountSummaryPage` (lines 28-32). -/
structure LeftColumn where
  balanceTable : Element
  nisaTable : Element
  valuationTable : Element
deriving DecidableEq

/-- The right-column fields of `AccountSummaryPage` (lines 33-38). -/
structure RightColumn where
  stockTable : Element
  fundTable : Element
  nisaFundTable : Element
  nisaTsumitateTable : Element
deriving DecidableEq

/-- The `mainPane` field of `AccountSummaryPage` (lines 27-39). -/
structure MainPane where
  leftColumn : LeftColumn
  rightColumn : RightColumn
deriving DecidableEq

/-- Model of `AccountSummaryPage` from summary-view.ts (lines 23-40). -/
structure AccountSummaryPage where
  summaryTable : Element
  allHeader : Element
  accountInfo : Element
  mainPane : MainPane
deriving DecidableEq

/-- Model of `accountSummaryPage` from summary-view.ts (lines 69-102): a chain
of lookups, each checked by `ensure` (or by the check inside
`findTitledTable`), evaluated in source order. -/
def accountSummaryPage (doc : Document) : Except String AccountSummaryPage := do
  let summaryTable ← ensure ((elemsByTag doc.body "table").get? 0)
    "Top-level table not found"
  let map ← ensure (qselMapTabAc summaryTable) "Tabs not found"
  let summaryPaneTable ← ensure (nextElementSibling doc.body map)
    "Summary pane table not found"
  let summaryPane ← ensure (qselTbodyTrTdN summaryPaneTable 2) "Summary pane not found"
  let tables := qsaTables summaryPane
  let allHeader ← ensure (tables.get? 0) "allHeader not found"
  let accountInfo ← ensure (tables.get? 1) "accountInfo not found"
  let mainPane ← ensure (tables.get? 3) "mainPane not found"
  let leftColumn ← ensure (qselTbodyTrTdN mainPane 1) "Left column not found"
  let rightColumn ← ensure (qselTbodyTrTdN mainPane 3) "Right column not found"
  let rightTables := qsaTables rightColumn
  let balanceTable ← ensure (qselTableNthOfType leftColumn 1) "Balance table not found"
  let nisaTable ← ensure (qselTableNthOfType leftColumn 3) "NISA table not found"
  let valuationTable ← ensure (qselTableNthOfType leftColumn 4) "Valuation table not found"
  let stockTable ← findTitledTable rightTables "株式（現物/特定預り）"
  let fundTable ← findTitledTable rightTables "投資信託（金額/特定預り）"
  let nisaFundTable ← findTitledTable rightTables "投資信託（金額/NISA預り（成長投資枠））"
  let nisaTsumitateTable ← findTitledTable rightTables "投資信託（金額/NISA預り（つみたて投資枠））"
  Except.ok
    { summaryTable := summaryTable
      allHeader := allHeader
      accountInfo := accountInfo
      mainPane :=
        { leftColumn :=
            { balanceTable := balanceTable
              nisaTable := nisaTable
              valuationTable := valuationTable }
          rightColumn :=
            { stockTable := stockTable
              fundTable := fundTable
              nisaFundTable := nisaFundTable
              nisaTsumitateTable := nisaTsumitateTable } } }

/-- The four fixed caption strings used for the right-column
sub-tables (lines 95-98). -/
def rightColumnCaptions : List String :=
  ["株式（現物/特定預り）", "投資信託（金額/特定預り）",
    "投資信託（金額/NISA預り（成長投資枠））", "投資信託（金額/NISA預り（つみたて投資枠））"]

/-- Lookup 1 (line 70): the first top-level table. -/
def step1 (doc : Document) : Option Element :=
  (elemsByTag doc.body "table").get? 0

/-- Lookup 2 (line 71): the tab map. -/
def step2 (doc : Document) : Option Element :=
  (step1 doc).bind qselMapTabAc

/-- Lookup 3 (line 73): the next sibling of the map. -/
def step3 (doc : Document) : Option Element :=
  (step2 doc).bind (nextElementSibling doc.body)

/-- Lookup 4 (line 74): the summary pane cell. -/
def step4 (doc : Document) : Option Element :=
  (step3 doc).bind (fun e => qselTbodyTrTdN e 2)

/-- Lookup 5 (line 77): `tables[0]`. -/
def step5 (doc : Document) : Option Element :=
  (step4 doc).bind (fun e => (qsaTables e).get? 0)

/-- Lookup 6 (line 78): `tables[1]`. -/
def step6 (doc : Document) : Option Element :=
  (step4 doc).bind (fun e => (qsaTables e).get? 1)

/-- Lookup 7 (line 79): `tables[3]`. -/
def step7 (doc : Document) : Option Element :=
  (step4 doc).bind (fun e => (qsaTables e).get? 3)

/-- Lookup 8 (line 80): the left column cell. -/
def step8 (doc : Document) : Option Element :=
  (step7 doc).bind (fun e => qselTbodyTrTdN e 1)

/-- Lookup 9 (line 81): the right column cell. -/
def step9 (doc : Document) : Option Element :=
  (step7 doc).bind (fun e => qselTbodyTrTdN e 3)

/-- Lookup 10 (line 90): the balance table. -/
def step10 (doc : Document) : Option Element :=
  (step8 doc).bind (fun e => qselTableNthOfType e 1)

/-- Lookup 11 (line 91): the NISA table. -/
def step11 (doc : Document) : Option Element :=
  (step8 doc).bind (fun e => qselTableNthOfType e 3)

/-- Lookup 12 (line 92): the valuation table. -/
def step12 (doc : Document) : Option Element :=
  (step8 doc).bind (fun e => qselTableNthOfType e 4)

/-- Lookup 13 (line 95): the captioned stock table. -/
def step13 (doc : Document) : Option Element :=
  (step9 doc).bind (fun e => findTitledTableSearch (qsaTables e) "株式（現物/特定預り）")

/-- Lookup 14 (line 96): the captioned fund table. -/
def step14 (doc : Document) : Option Element :=
  (step9 doc).bind (fun e => findTitledTableSearch (qsaTables e) "投資信託（金額/特定預り）")

/-- Lookup 15 (line 97): the captioned NISA fund table. -/
def step15 (doc : Document) : Option Element :=
  (step9 doc).bind (fun e =>
    findTitledTableSearch (qsaTables e) "投資信託（金額/NISA預り（成長投資枠））")

/-- Lookup 16 (line 98): the captioned NISA tsumitate table. -/
def step16 (doc : Document) : Option Element :=
  (step9 doc).bind (fun e =>
    findTitledTableSearch (qsaTables e) "投資信託（金額/NISA預り（つみたて投資枠））")

/-- The lookups of `accountSummaryPage` in evaluation order, each with
the error message raised when it is the first to fail. -/
def locateSteps (doc : Document) : List (Option Element × String) :=
  [(step1 doc, "Top-level table not found"),
    (step2 doc, "Tabs not found"),
    (step3 doc, "Summary pane table not found"),
    (step4 doc, "Summary pane not found"),
    (step5 doc, "allHeader not found"),
    (step6 doc, "accountInfo not found"),
    (step7 doc, "mainPane not found"),
    (step8 doc, "Left column not found"),
    (step9 doc, "Right column not found"),
    (step10 doc, "Balance table not found"),
    (step11 doc, "NISA table not found"),
    (step12 doc, "Valuation table not found"),
    (step13 doc, "Table titled 株式（現物/特定預り） not found"),
    (step14 doc, "Table titled 投資信託（金額/特定預り） not found"),
    (step15 doc, "Table titled 投資信託（金額/NISA預り（成長投資枠）） not found"),
    (step16 doc, "Table titled 投資信託（金額/NISA預り（つみたて投資枠）） not found")]

theorem exceptBindOk {ε α β : Type} (a : α) (f : α → Except ε β) :
    (Except.ok a >>= f) = f a := rfl

theorem exceptBindError {ε α β : Type} (e : ε) (f : α → Except ε β) :
    ((Except.error e : Except ε α) >>= f) = Except.error e := rfl

theorem optionBindSome {α β : Type} (a : α) (f : α → Option β) :
    (Option.some a).bind f = f a := rfl

set_option maxHeartbeats 3200000 in
/-- C3: for every document, `accountSummaryPage` either succeeds with
a structure whose every field is the element found by the
corresponding lookup (all lookups succeed; no partial structure), or
fails with the descriptive message of the first lookup, in evaluation
order, that found no element — lookups past the first missing one do
not influence the result. -/
theorem locate_fail_fast (doc : Document) :
    ((∀ s ∈ locateSteps doc, (Prod.fst s).isSome = true) ∧
      ∃ ps, accountSummaryPage doc = Except.ok ps ∧
        step1 doc = some ps.summaryTable ∧
        step5 doc = some ps.allHeader ∧
        step6 doc = some ps.accountInfo ∧
        step10 doc = some ps.mainPane.leftColumn.balanceTable ∧
        step11 doc = some ps.mainPane.leftColumn.nisaTable ∧
        step12 doc = some ps.mainPane.leftColumn.valuationTable ∧
        step13 doc = some ps.mainPane.rightColumn.stockTable ∧
        step14 doc = some ps.mainPane.rightColumn.fundTable ∧
        step15 doc = some ps.mainPane.rightColumn.nisaFundTable ∧
        step16 doc = some ps.mainPane.rightColumn.nisaTsumitateTable) ∨
    (∃ k msg, (locateSteps doc).get? k = some (none, msg) ∧
      (∀ j, j < k → ∃ e m, (locateSteps doc).get? j = some (some e, m)) ∧
      accountSummaryPage doc = Except.error msg) := by
  cases h1 : (elemsByTag doc.body "table")[0]? with
  | none =>
    refine Or.inr ⟨0, "Top-level table not found", ?_, ?_, ?_⟩
    · simp [locateSteps, step1, h1]
    · intro j hj; omega
    · simp [accountSummaryPage, ensure, h1, exceptBindError]
  | some e1 =>
  cases h2 : qselMapTabAc e1 with
  | none =>
    refine Or.inr ⟨1, "Tabs not found", ?_, ?_, ?_⟩
    · simp [locateSteps, step2, step1, h1, h2, optionBindSome]
    · intro j hj
      interval_cases j <;> simp [locateSteps, step1, h1]
    · simp [accountSummaryPage, ensure, h1, h2, exceptBindOk, exceptBindError]
  | some e2 =>
  cases h3 : nextElementSibling doc.body e2 with
  | none =>
    refine Or.inr ⟨2, "Summary pane table not found", ?_, ?_, ?_⟩
    · simp [locateSteps, step3, step2, step1, h1, h2, h3, optionBindSome]
    · intro j hj
      interval_cases j <;>
        simp [locateSteps, step2, step1, h1, h2, optionBindSome]
    · simp [accountSummaryPage, ensure, h1, h2, h3, exceptBindOk, exceptBindError]
  | some e3 =>
  cases h4 : qselTbodyTrTdN e3 2 with
  | none =>
    refine Or.inr ⟨3, "Summary pane not found", ?_, ?_, ?_⟩
    · simp [locateSteps, step4, step3, step2, step1, h1, h2, h3, h4, optionBindSome]
    · intro j hj
      interval_cases j <;>
        simp [locateSteps, step3, step2, step1, h1, h2, h3, optionBindSome]
    · simp [accountSummaryPage, ensure, h1, h2, h3, h4, exceptBindOk, exceptBindError]
  | some e4 =>
  cases h5 : (qsaTables e4)[0]? with
  | none =>
    refine Or.inr ⟨4, "allHeader not found", ?_, ?_, ?_⟩
    · simp [locateSteps, step5, step4, step3, step2, step1, h1, h2, h3, h4, h5,
        optionBindSome]
    · intro j hj
      interval_cases j <;>
        simp [locateSteps, step4, step3, step2, step1, h1, h2, h3, h4, optionBindSome]
    · simp [accountSummaryPage, ensure, h1, h2, h3, h4, h5, exceptBindOk,
        exceptBindError]
  | some e5 =>
  cases h6 : (qsaTables e4)[1]? with
  | none =>
    refine Or.inr ⟨5, "accountInfo not found", ?_, ?_, ?_⟩
    · simp [locateSteps, step6, step4, step3, step2, step1, h1, h2, h3, h4, h6,
        optionBindSome]
    · intro j hj
      interval_cases j <;>
        simp [locateSteps, step5, step4, step3, step2, step1, h1, h2, h3, h4, h5,
          optionBindSome]
    · simp [accountSummaryPage, ensure, h1, h2, h3, h4, h5, h6, exceptBindOk,
        exceptBindError]
  | some e6 =>
  cases h7 : (qsaTables e4)[3]? with
  | none =>
    refine Or.inr ⟨6, "mainPane not found", ?_, ?_, ?_⟩
    · simp [locateSteps, step7, step4, step3, step2, step1, h1, h2, h3, h4, h7,
        optionBindSome]
    · intro j hj
      interval_cases j <;>
        simp [locateSteps, step6, step5, step4, step3, step2, step1, h1, h2, h3, h4,
          h5, h6, optionBindSome]
    · simp [accountSummaryPage, ensure, h1, h2, h3, h4, h5, h6, h7, exceptBindOk,
        exceptBindError]
  | some e7 =>
  cases h8 : qselTbodyTrTdN e7 1 with
  | none =>
    refine Or.inr ⟨7, "Left column not found", ?_, ?_, ?_⟩
    · simp [locateSteps, step8, step7, step4, step3, step2, step1, h1, h2, h3, h4,
        h7, h8, optionBindSome]
    · intro j hj
      interval_cases j <;>
        simp [locateSteps, step7, step6, step5, step4, step3, step2, step1, h1, h2,
          h3, h4, h5, h6, h7, optionBindSome]
    · simp [accountSummaryPage, ensure, h1, h2, h3, h4, h5, h6, h7, h8, exceptBindOk,
        exceptBindError]
  | some e8 =>
  cases h9 : qselTbodyTrTdN e7 3 with
  | none =>
    refine Or.inr ⟨8, "Right column not found", ?_, ?_, ?_⟩
    · simp [locateSteps, step9, step7, step4, step3, step2, step1, h1, h2, h3, h4,
        h7, h9, optionBindSome]
    · intro j hj
      interval_cases j <;>
        simp [locateSteps, step8, step7, step6, step5, step4, step3, step2, step1,
          h1, h2, h3, h4, h5, h6, h7, h8, optionBindSome]
    · simp [accountSummaryPage, ensure, h1, h2, h3, h4, h5, h6, h7, h8, h9,
        exceptBindOk, exceptBindError]
  | some e9 =>
  cases h10 : qselTableNthOfType e8 1 with
  | none =>
    refine Or.inr ⟨9, "Balance table not found", ?_, ?_, ?_⟩
    · simp [locateSteps, step10, step8, step7, step4, step3, step2, step1, h1, h2,
        h3, h4, h7, h8, h10, optionBindSome]
    · intro j hj
      interval_cases j <;>
        simp [locateSteps, step9, step8, step7, step6, step5, step4, step3, step2,
          step1, h1, h2, h3, h4, h5, h6, h7, h8, h9, optionBindSome]
    · simp [accountSummaryPage, ensure, h1, h2, h3, h4, h5, h6, h7, h8, h9, h10,
        exceptBindOk, exceptBindError]
  | some e10 =>
  cases h11 : qselTableNthOfType e8 3 with
  | none =>
    refine Or.inr ⟨10, "NISA table not found", ?_, ?_, ?_⟩
    · simp [locateSteps, step11, step8, step7, step4, step3, step2, step1, h1, h2,
        h3, h4, h7, h8, h11, optionBindSome]
    · intro j hj
      interval_cases j <;>
        simp [locateSteps, step10, step9, step8, step7, step6, step5, step4, step3,
          step2, step1, h1, h2, h3, h4, h5, h6, h7, h8, h9, h10, optionBindSome]
    · simp [accountSummaryPage, ensure, h1, h2, h3, h4, h5, h6, h7, h8, h9, h10,
        h11, exceptBindOk, exceptBindError]
  | some e11 =>
  cases h12 : qselTableNthOfType e8 4 with
  | none =>
    refine Or.inr ⟨11, "Valuation table not found", ?_, ?_, ?_⟩
    · simp [locateSteps, step12, step8, step7, step4, step3, step2, step1, h1, h2,
        h3, h4, h7, h8, h12, optionBindSome]
    · intro j hj
      interval_cases j <;>
        simp [locateSteps, step11, step10, step9, step8, step7, step6, step5, step4,
          step3, step2, step1, h1, h2, h3, h4, h5, h6, h7, h8, h9, h10, h11,
          optionBindSome]
    · simp [accountSummaryPage, ensure, h1, h2, h3, h4, h5, h6, h7, h8, h9, h10,
        h11, h12, exceptBindOk, exceptBindError]
  | some e12 =>
  cases h13 : findTitledTableSearch (qsaTables e9) "株式（現物/特定預り）" with
  | none =>
    refine Or.inr ⟨12, "Table titled 株式（現物/特定預り） not found", ?_, ?_, ?_⟩
    · simp [locateSteps, step13, step9, step7, step4, step3, step2, step1, h1, h2,
        h3, h4, h7, h9, h13, optionBindSome]
    · intro j hj
      interval_cases j <;>
        simp [locateSteps, step12, step11, step10, step9, step8, step7, step6,
          step5, step4, step3, step2, step1, h1, h2, h3, h4, h5, h6, h7, h8, h9,
          h10, h11, h12, optionBindSome]
    · simp [accountSummaryPage, ensure, findTitledTable, h1, h2, h3, h4, h5, h6,
        h7, h8, h9, h10, h11, h12, h13, exceptBindOk, exceptBindError]
  | some e13 =>
  cases h14 : findTitledTableSearch (qsaTables e9) "投資信託（金額/特定預り）" with
  | none =>
    refine Or.inr ⟨13, "Table titled 投資信託（金額/特定預り） not found", ?_, ?_, ?_⟩
    · simp [locateSteps, step14, step9, step7, step4, step3, step2, step1, h1, h2,
        h3, h4, h7, h9, h14, optionBindSome]
    · intro j hj
      interval_cases j <;>
        simp [locateSteps, step13, step12, step11, step10, step9, step8, step7,
          step6, step5, step4, step3, step2, step1, h1, h2, h3, h4, h5, h6, h7, h8,
          h9, h10, h11, h12, h13, optionBindSome]
    · simp [accountSummaryPage, ensure, findTitledTable, h1, h2, h3, h4, h5, h6,
        h7, h8, h9, h10, h11, h12, h13, h14, exceptBindOk, exceptBindError]
  | some e14 =>
  cases h15 : findTitledTableSearch (qsaTables e9) "投資信託（金額/NISA預り（成長投資枠））" with
  | none =>
    refine Or.inr ⟨14, "Table titled 投資信託（金額/NISA預り（成長投資枠）） not found", ?_, ?_, ?_⟩
    · simp [locateSteps, step15, step9, step7, step4, step3, step2, step1, h1, h2,
        h3, h4, h7, h9, h15, optionBindSome]
    · intro j hj
      interval_cases j <;>
        simp [locateSteps, step14, step13, step12, step11, step10, step9, step8,
          step7, step6, step5, step4, step3, step2, step1, h1, h2, h3, h4, h5, h6,
          h7, h8, h9, h10, h11, h12, h13, h14, optionBindSome]
    · simp [accountSummaryPage, ensure, findTitledTable, h1, h2, h3, h4, h5, h6,
        h7, h8, h9, h10, h11, h12, h13, h14, h15, exceptBindOk, exceptBindError]
  | some e15 =>
  cases h16 : findTitledTableSearch (qsaTables e9) "投資信託（金額/NISA預り（つみたて投資枠））" with
  | none =>
    refine Or.inr ⟨15, "Table titled 投資信託（金額/NISA預り（つみたて投資枠）） not found", ?_, ?_, ?_⟩
    · simp [locateSteps, step16, step9, step7, step4, step3, step2, step1, h1, h2,
        h3, h4, h7, h9, h16, optionBindSome]
    · intro j hj
      interval_cases j <;>
        simp [locateSteps, step15, step14, step13, step12, step11, step10, step9,
          step8, step7, step6, step5, step4, step3, step2, step1, h1, h2, h3, h4,
          h5, h6, h7, h8, h9, h10, h11, h12, h13, h14, h15, optionBindSome]
    · simp [accountSummaryPage, ensure, findTitledTable, h1, h2, h3, h4, h5, h6,
        h7, h8, h9, h10, h11, h12, h13, h14, h15, h16, exceptBindOk, exceptBindError]
  | some e16 =>
  refine Or.inl ⟨?_, ⟨{ summaryTable := e1
                        allHeader := e5
                        accountInfo := e6
                        mainPane :=
                          { leftColumn :=
                              { balanceTable := e10
                                nisaTable := e11
                                valuationTable := e12 }
                            rightColumn :=
                              { stockTable := e13
                                fundTable := e14
                                nisaFundTable := e15
                                nisaTsumitateTable := e16 } } },
    ?_, ?_, ?_, ?_, ?_, ?_, ?_, ?_, ?_, ?_, ?_⟩⟩
  · simp [locateSteps, step16, step15, step14, step13, step12, step11, step10,
      step9, step8, step7, step6, step5, step4, step3, step2, step1, h1, h2, h3,
      h4, h5, h6, h7, h8, h9, h10, h11, h12, h13, h14, h15, h16, optionBindSome]
  · simp [accountSummaryPage, ensure, findTitledTable, h1, h2, h3, h4, h5, h6, h7,
      h8, h9, h10, h11, h12, h13, h14, h15, h16, exceptBindOk, exceptBindError]
  · simp [step1, h1]
  · simp [step5, step4, step3, step2, step1, h1, h2, h3, h4, h5, optionBindSome]
  · simp [step6, step4, step3, step2, step1, h1, h2, h3, h4, h6, optionBindSome]
  · simp [step10, step8, step7, step4, step3, step2, step1, h1, h2, h3, h4, h7, h8,
      h10, optionBindSome]
  · simp [step11, step8, step7, step4, step3, step2, step1, h1, h2, h3, h4, h7, h8,
      h11, optionBindSome]
  · simp [step12, step8, step7, step4, step3, step2, step1, h1, h2, h3, h4, h7, h8,
      h12, optionBindSome]
  · simp [step13, step9, step7, step4, step3, step2, step1, h1, h2, h3, h4, h7, h9,
      h13, optionBindSome]
  · simp [step14, step9, step7, step4, step3, step2, step1, h1, h2, h3, h4, h7, h9,
      h14, optionBindSome]
  · simp [step15, step9, step7, step4, step3, step2, step1, h1, h2, h3, h4, h7, h9,
      h15, optionBindSome]
  · simp [step16, step9, step7, step4, step3, step2, step1, h1, h2, h3, h4, h7, h9,
      h16, optionBindSome]

theorem tableTitleIs_iff (title : String) (t : Element) :
    tableTitleIs title t = true ↔
      ∃ tr, qselTrFirstOfType t = some tr ∧ textContent tr = title := by
  simp only [tableTitleIs]
  cases h : qselTrFirstOfType t with
  | none => simp
  | some tr => simp [h]

/-- C7: the right-column sub-tables are located by exact equality of a
first-row text of a candidate table against the requested fixed caption
(one of the four in `rightColumnCaptions`): the lookup fails — with an
error naming that caption — exactly when no candidate first-row text
equals it, and any table it returns is a candidate whose first-row
text equals it. -/
theorem titled_tables_exact_caption (title : String) (tables : List Element)
    (hmem : title ∈ rightColumnCaptions) :
    (findTitledTable tables title =
        Except.error ("Table titled " ++ title ++ " not found") ↔
      ∀ t ∈ tables, ∀ tr, qselTrFirstOfType t = some tr → textContent tr ≠ title) ∧
    ∀ t, findTitledTable tables title = Except.ok t →
      t ∈ tables ∧ ∃ tr, qselTrFirstOfType t = some tr ∧ textContent tr = title := by
  constructor
  · cases hf : findTitledTableSearch tables title with
    | none =>
      apply iff_of_true
      · simp [findTitledTable, hf]
      · intro t ht tr htr hcon
        have hnone : ¬(tableTitleIs title t = true) := by
          have := List.find?_eq_none.mp hf t ht
          simpa using this
        rw [tableTitleIs_iff] at hnone
        exact hnone ⟨tr, htr, hcon⟩
    | some t0 =>
      have ht0mem : t0 ∈ tables := List.mem_of_find?_eq_some hf
      have ht0 : tableTitleIs title t0 = true := List.find?_some hf
      rw [tableTitleIs_iff] at ht0
      obtain ⟨tr, htr, htitle⟩ := ht0
      apply iff_of_false
      · simp [findTitledTable, hf]
      · intro hall
        exact hall t0 ht0mem tr htr htitle
  · intro t hok
    cases hf : findTitledTableSearch tables title with
    | none => simp [findTitledTable, hf] at hok
    | some t0 =>
      simp only [findTitledTable, hf, Except.ok.injEq] at hok
      subst hok
      have ht0 : tableTitleIs title t0 = true := List.find?_some hf
      rw [tableTitleIs_iff] at ht0
      exact ⟨List.mem_of_find?_eq_some hf, ht0⟩

/-- A candidate captioned table used in witnesses and examples. -/
def exCaptionTable (caption : String) : Element :=
  Element.mk "table" [] ""
    [Element.mk "tbody" [] "" [Element.mk "tr" [] caption []]]

/-- Witness for the C7 theorem at the first fixed caption and a
one-candidate list carrying exactly that caption. -/
theorem titled_tables_exact_caption_witness :
    ("株式（現物/特定預り）" ∈ rightColumnCaptions) ∧
      exCaptionTable "株式（現物/特定預り）" ∈ [exCaptionTable "株式（現物/特定預り）"] ∧
      ∃ tr, qselTrFirstOfType (exCaptionTable "株式（現物/特定預り）") = some tr ∧
        textContent tr = "株式（現物/特定預り）" :=
  ⟨by decide,
    (titled_tables_exact_caption "株式（現物/特定預り）"
        [exCaptionTable "株式（現物/特定預り）"] (by decide)).2
      (exCaptionTable "株式（現物/特定預り）") (by decide)⟩

/-- A leaf table for the example page. -/
def exLeafTable (label : String) : Element :=
  Element.mk "table" [] label []

/-- The example left column: four tables, of which the 1st, 3rd and
4th are the balance, NISA and valuation tables. -/
def exLeft : Element :=
  Element.mk "td" [] ""
    [exLeafTable "balance", exLeafTable "filler", exLeafTable "nisa",
      exLeafTable "valuation"]

/-- The example right column: the four captioned tables. -/
def exRight : Element :=
  Element.mk "td" [] ""
    [exCaptionTable "株式（現物/特定預り）", exCaptionTable "投資信託（金額/特定預り）",
      exCaptionTable "投資信託（金額/NISA預り（成長投資枠））",
      exCaptionTable "投資信託（金額/NISA預り（つみたて投資枠））"]

/-- The example main pane: left column in the 1st cell, right column
in the 3rd. -/
def exMainPane : Element :=
  Element.mk "table" [] ""
    [Element.mk "tbody" [] ""
      [Element.mk "tr" [] "" [exLeft, Element.mk "td" [] "" [], exRight]]]

/-- The example summary pane: `tables[0]`, `tables[1]`, a filler, and
the main pane at `tables[3]`. -/
def exSummaryPane : Element :=
  Element.mk "td" [] ""
    [exLeafTable "allHeader", exLeafTable "accountInfo", exLeafTable "filler",
      exMainPane]

/-- The example top-level table: the tab map followed by the summary
pane table. -/
def exSummaryTable : Element :=
  Element.mk "table" [] ""
    [Element.mk "map" [("name", "tab_ac")] "" [],
      Element.mk "table" [] ""
        [Element.mk "tbody" [] ""
          [Element.mk "tr" [] "" [Element.mk "td" [] "" [], exSummaryPane]]]]

/-- The example document: a well-formed account summary page. -/
def exDoc : Document :=
  ⟨Element.mk "body" [] "" [exSummaryTable]⟩

example : (accountSummaryPage exDoc).toOption.isSome = true := by decide

/-- Witness for the C3 theorem at the concrete example document. -/
theorem locate_fail_fast_witness :
    ((∀ s ∈ locateSteps exDoc, (Prod.fst s).isSome = true) ∧
      ∃ ps, accountSummaryPage exDoc = Except.ok ps ∧
        step1 exDoc = some ps.summaryTable ∧
        step5 exDoc = some ps.allHeader ∧
        step6 exDoc = some ps.accountInfo ∧
        step10 exDoc = some ps.mainPane.leftColumn.balanceTable ∧
        step11 exDoc = some ps.mainPane.leftColumn.nisaTable ∧
        step12 exDoc = some ps.mainPane.leftColumn.valuationTable ∧
        step13 exDoc = some ps.mainPane.rightColumn.stockTable ∧
        step14 exDoc = some ps.mainPane.rightColumn.fundTable ∧
        step15 exDoc = some ps.mainPane.rightColumn.nisaFundTable ∧
        step16 exDoc = some ps.mainPane.rightColumn.nisaTsumitateTable) ∨
    (∃ k msg, (locateSteps exDoc).get? k = some (none, msg) ∧
      (∀ j, j < k → ∃ e m, (locateSteps exDoc).get? j = some (some e, m)) ∧
      accountSummaryPage exDoc = Except.error msg) :=
  locate_fail_fast exDoc

example :
    accountSummaryPage ⟨Element.mk "body" [] "" []⟩ =
      Except.error "Top-level table not found" := by decide

end Sbisec
